import Mathlib

/-!
# Verification of the Reflections diary/mood application

Shallow embedding of the mood-to-music mapper (`lib/spotify.ts`,
`SpotifyService`), the sentiment-analysis fallback (`lib/sentiment.ts`),
playlist creation (`SpotifyService.createPlaylist`) and the diary-entry
listing endpoint (`app/api/entries/route.ts`), together with proofs of the
behavioural properties claimed for them.

JavaScript conventions used by the embedding:
* object-literal lookup `table[key]` with string keys becomes an
  `if key = "..." then some v else ...` chain returning `Option`
  (`undefined` becomes `none`), and `x || fallback` on such a lookup
  becomes `Option.getD`;
* a JS object whose fields are numbers is an ordered association list of
  `(propertyName, value)` pairs; object spread `\x7b...a, ...b\x7d` is list
  append, and reading a property takes the value of the LAST binding for
  that name (later spreads overwrite earlier fields), see `getProp`;
* on the table lookups `Option.getD` renders `||` exactly, because the
  only falsy value a lookup can produce is `undefined` (every table row
  is a non-empty array or object, and those are truthy in JS); on
  strings, however, the empty string is falsy too, so
  `content || '\x7b\x7d'` is rendered by `orEmptyJson`, which falls back both
  on `none` and on `""`;
* numeric literals such as `0.7` become the rationals `7/10`.
-/

namespace Reflections

/-! ## Genre tables (`SpotifyService.getGenresBySentiment`) -/

/-- `genreMap.neutral` from the source: the base genres for `neutral`,
also used as the fallback row for an unrecognized sentiment. -/
def neutralGenres : List String :=
  ["chill", "acoustic", "indie-folk", "ambient", "jazz"]

/-- The `genreMap` object: base genres per sentiment; lookup of any other
key yields `undefined` (`none`). -/
def genreMap (sentiment : String) : Option (List String) :=
  if sentiment = "positive" then some ["pop", "indie", "electronic", "dance", "funk"]
  else if sentiment = "negative" then some ["indie", "alternative", "blues", "folk", "ambient"]
  else if sentiment = "neutral" then some neutralGenres
  else none

/-- The `moodGenres` object: genres contributed by each recognized mood. -/
def moodGenres (mood : String) : Option (List String) :=
  if mood = "happy" then some ["pop", "dance", "funk", "disco"]
  else if mood = "energetic" then some ["electronic", "dance", "rock", "pop"]
  else if mood = "calm" then some ["ambient", "chill", "acoustic", "classical"]
  else if mood = "sad" then some ["blues", "indie", "folk", "alternative"]
  else if mood = "anxious" then some ["ambient", "chill", "classical"]
  else if mood = "excited" then some ["pop", "electronic", "dance"]
  else if mood = "melancholy" then some ["indie", "alternative", "folk"]
  else if mood = "peaceful" then some ["ambient", "classical", "acoustic"]
  else if mood = "angry" then some ["rock", "alternative", "metal"]
  else if mood = "content" then some ["indie", "folk", "acoustic"]
  else none

/-- `getGenresBySentiment`: `[...(genreMap[sentiment] || genreMap.neutral),
...(moodGenres[mood] || [])]` — base genres first, then mood genres,
with no de-duplication. -/
def getGenresBySentiment (sentiment mood : String) : List String :=
  (genreMap sentiment).getD neutralGenres ++ (moodGenres mood).getD []

/-- The seed-genre list actually sent by `getRecommendations`:
`genres.slice(0, 3)` (at most 3 genre seeds). -/
def recommendationSeedGenres (sentiment mood : String) : List String :=
  (getGenresBySentiment sentiment mood).take 3

/-! ## Audio-feature tables (`SpotifyService.getAudioFeaturesBySentiment`)

A feature object is an ordered list of `(propertyName, value)` pairs;
`\x7b...base, ...adjustments\x7d` is `base ++ adjustments` and reading a
property returns the last binding for that name. -/

/-- `baseFeatures.neutral`: the neutral base triple, also the fallback row
for an unrecognized sentiment. -/
def neutralFeatures : List (String × ℚ) :=
  [("valence", 0.5), ("energy", 0.5), ("danceability", 0.5)]

/-- The `baseFeatures` object: base `(valence, energy, danceability)`
values per sentiment, as an ordered property list. -/
def baseFeatures (sentiment : String) : Option (List (String × ℚ)) :=
  if sentiment = "positive" then
    some [("valence", 0.7), ("energy", 0.6), ("danceability", 0.6)]
  else if sentiment = "negative" then
    some [("valence", 0.3), ("energy", 0.4), ("danceability", 0.4)]
  else if sentiment = "neutral" then some neutralFeatures
  else none

/-- The `moodAdjustments` object: sparse per-mood overrides listing only
the fields each mood changes. -/
def moodAdjustments (mood : String) : Option (List (String × ℚ)) :=
  if mood = "energetic" then some [("energy", 0.8), ("danceability", 0.7)]
  else if mood = "calm" then some [("energy", 0.3), ("valence", 0.6)]
  else if mood = "excited" then some [("energy", 0.9), ("valence", 0.8), ("danceability", 0.8)]
  else if mood = "sad" then some [("valence", 0.2), ("energy", 0.3)]
  else if mood = "peaceful" then some [("valence", 0.7), ("energy", 0.2)]
  else none

/-- `getAudioFeaturesBySentiment`: `\x7b ...base, ...adjustments \x7d` where
`base = baseFeatures[sentiment] || baseFeatures.neutral` and
`adjustments = moodAdjustments[mood] || \x7b\x7d`. -/
def getAudioFeaturesBySentiment (sentiment mood : String) : List (String × ℚ) :=
  (baseFeatures sentiment).getD neutralFeatures ++ (moodAdjustments mood).getD []

/-- Reading property `key` of a JS object built by successive field
assignments: the last binding for `key` wins (JS spread overwrites
earlier fields of the same name). -/
def getProp (o : List (String × ℚ)) (key : String) : Option ℚ :=
  o.foldl (fun acc p => if p.1 = key then some p.2 else acc) none

/-! ## Specification-side genre seed set

The data-model section of the specification describes the genre seed set
as "deduplicated by construction order (sentiment-derived genres first,
then mood-derived genres), truncated to the service's maximum seed
count".  `dedupFirst` and `specGenreSeedSet` transcribe those words so
they can be compared with the code's `recommendationSeedGenres`. -/

/-- Keep the first occurrence of every element, preserving order. -/
def dedupFirst : List String → List String
  | [] => []
  | x :: xs => x :: (dedupFirst xs).filter (fun y => y != x)

/-- The spec's GenreSeedSet: concatenate sentiment genres then mood
genres, de-duplicate keeping first occurrences, truncate to 3. -/
def specGenreSeedSet (sentiment mood : String) : List String :=
  (dedupFirst ((genreMap sentiment).getD neutralGenres ++ (moodGenres mood).getD [])).take 3

/-! ## Sentiment analysis (`lib/sentiment.ts`) -/

/-- A JavaScript/JSON runtime value, as `JSON.parse` can produce it.
The `as SentimentResult` cast in `analyzeSentiment` is a compile-time
assertion only, so the function can return *any* of these at runtime. -/
inductive Js
  | null
  | bool (b : Bool)
  | num (q : ℚ)
  | str (s : String)
  | arr (xs : List Js)
  | obj (fields : List (String × Js))

/-- The hard-coded fallback returned from the `catch` block of
`analyzeSentiment`: `\x7bsentiment: 'neutral', confidence: 0.5, mood: 'calm'\x7d`
(no `explanation` field). -/
def jsDefaultSentimentResult : Js :=
  .obj [("sentiment", .str "neutral"), ("confidence", .num 0.5), ("mood", .str "calm")]

/-- `content || '\x7b\x7d'`: in JS both `null`/`undefined` content and the
empty string are falsy, so both fall back to the text `\x7b\x7d`. -/
def orEmptyJson (content : Option String) : String :=
  match content with
  | none => "\x7b\x7d"
  | some s => if s = "" then "\x7b\x7d" else s

/-- `analyzeSentiment`: the OpenAI chat-completion call either throws
(`Except.error`) or yields `response.choices[0].message.content`
(possibly `null`, hence `Option String`).  `JSON.parse` (a platform
builtin, hence a parameter) either throws on invalid JSON or yields a
JS value; `result as SentimentResult` is an unchecked cast, so a parsed
value is returned as-is with no validation.  Every exception escaping
the `try` block is caught and replaced by `jsDefaultSentimentResult`. -/
def analyzeSentiment (completionCall : Except String (Option String))
    (jsonParse : String → Except String Js) : Js :=
  match completionCall with
  | .error _ => jsDefaultSentimentResult
  | .ok content =>
    match jsonParse (orEmptyJson content) with
    | .error _ => jsDefaultSentimentResult
    | .ok result => result

/-- The platform `JSON.parse` restricted to the inputs the C6 theorems
exercise: the text `\x7b\x7d` parses to the empty object and the text `5`
parses to the number `5` — neither throws — while the remaining inputs
are treated as syntax errors (conservative here, since only texts a
conjunct actually passes in matter). -/
def jsonParseFragment : String → Except String Js := fun s =>
  if s = "\x7b\x7d" then .ok (.obj [])
  else if s = "5" then .ok (.num 5)
  else .error "SyntaxError: Unexpected token"

/-! ## Playlist creation (`SpotifyService.createPlaylist`) -/

/-- An HTTP response as the code observes it: the `ok` status flag plus
the already-parsed JSON body. -/
structure HttpResp (α : Type) where
  ok : Bool
  body : α
deriving DecidableEq

/-- The playlist object returned by the create-playlist endpoint (the
fields the code passes on: `id` and `external_urls.spotify`). -/
structure SpotifyPlaylist where
  id : String
  url : String
deriving DecidableEq

/-- The outbound Spotify requests `createPlaylist` can issue, in the
order the code issues them, with the payload each carries.  There is no
delete/rollback request. -/
inductive SpotifyCall
  | getMe
  | createPlaylistReq (name : String)
  | addTracksReq (uris : List String)
deriving DecidableEq

/-- A step's outcome: the `fetch`/`json()` either throws
(`Except.error`, caught by the surrounding `try`) or yields a response
whose `ok` flag the code may or may not inspect. -/
def stepFailed {α : Type} : Except String (HttpResp α) → Bool
  | .error _ => true
  | .ok r => !r.ok

/-- `createPlaylist`: resolve the current user (`/v1/me`), create the
playlist, then add the tracks (only when `trackIds.length > 0`).  The
first two responses are checked with `if (!response.ok) return null`;
the add-tracks response status is never inspected.  Any thrown error is
caught and turned into `null`.  The second component records which
outbound requests were issued before returning. -/
def createPlaylist (meStep : Except String (HttpResp String))
    (playlistStep : Except String (HttpResp SpotifyPlaylist))
    (addStep : Except String (HttpResp Unit))
    (name : String) (trackIds : List String) :
    Option SpotifyPlaylist × List SpotifyCall :=
  match meStep with
  | .error _ => (none, [.getMe])
  | .ok userResponse =>
    if !userResponse.ok then (none, [.getMe])
    else
      match playlistStep with
      | .error _ => (none, [.getMe, .createPlaylistReq name])
      | .ok playlistResponse =>
        if !playlistResponse.ok then (none, [.getMe, .createPlaylistReq name])
        else if trackIds.length > 0 then
          let uris := trackIds.map (fun id => "spotify:track:" ++ id)
          match addStep with
          | .error _ =>
            (none, [.getMe, .createPlaylistReq name, .addTracksReq uris])
          | .ok _ =>
            (some playlistResponse.body, [.getMe, .createPlaylistReq name, .addTracksReq uris])
        else (some playlistResponse.body, [.getMe, .createPlaylistReq name])

/-! ## Diary-entry listing (`app/api/entries/route.ts`, `GET`) -/

/-- A persisted diary entry (the Prisma `Entry` row; the fields the
listing endpoint's behaviour depends on, with `date` as the creation
timestamp used by `orderBy`). -/
structure Entry where
  id : Nat
  userId : Nat
  content : String
  sentiment : Option String
  mood : Option String
  date : Nat
deriving DecidableEq

/-- A Prisma `User` row as the handler uses it. -/
structure User where
  id : Nat
  email : String
deriving DecidableEq

/-- `session.user` (the `email` may be absent). -/
structure SessionUser where
  email : Option String
deriving DecidableEq

/-- A NextAuth session (`session.user` may be absent). -/
structure SessionData where
  user : Option SessionUser
deriving DecidableEq

/-- Newest-first ordering on entries: `orderBy: \x7b date: 'desc' \x7d`. -/
def entryAfter (a b : Entry) : Prop := b.date ≤ a.date

instance : DecidableRel entryAfter := fun a b => Nat.decLe b.date a.date

instance : IsTotal Entry entryAfter := ⟨fun a b => Nat.le_total b.date a.date⟩

instance : IsTrans Entry entryAfter := ⟨fun _ _ _ h1 h2 => Nat.le_trans h2 h1⟩

/-- `prisma.entry.findMany(\x7b where: \x7b userId \x7d, orderBy: \x7b date: 'desc' \x7d,
take: 50 \x7d)`: the user's entries, sorted by descending creation time,
capped at 50. -/
def findManyEntries (db : List Entry) (uid : Nat) : List Entry :=
  (List.insertionSort entryAfter (db.filter (fun e => e.userId == uid))).take 50

/-- The possible responses of the `GET /api/entries` handler. -/
inductive EntriesResponse
  | unauthorized
  | notFound
  | ok (entries : List Entry)
deriving DecidableEq

/-- The `GET /api/entries` handler: reject when `session?.user?.email`
is missing (401), reject when no user row matches the session email
(404), otherwise return the user's 50 most recent entries. -/
def entriesGET (session : Option SessionData) (users : List User)
    (db : List Entry) : EntriesResponse :=
  match session with
  | none => .unauthorized
  | some s =>
    match s.user with
    | none => .unauthorized
    | some u =>
      match u.email with
      | none => .unauthorized
      | some email =>
        match users.find? (fun usr => usr.email == email) with
        | none => .notFound
        | some usr => .ok (findManyEntries db usr.id)

/-! ## Case lemmas for the lookup tables -/

/-- `genreMap` takes one of four values: the three rows or `none`. -/
lemma genreMap_cases (s : String) :
    genreMap s = some ["pop", "indie", "electronic", "dance", "funk"]
  ∨ genreMap s = some ["indie", "alternative", "blues", "folk", "ambient"]
  ∨ genreMap s = some neutralGenres
  ∨ genreMap s = none := by
  unfold genreMap
  (repeat' split) <;> decide

/-- `moodGenres` takes one of eleven values: the ten rows or `none`. -/
lemma moodGenres_cases (m : String) :
    moodGenres m = some ["pop", "dance", "funk", "disco"]
  ∨ moodGenres m = some ["electronic", "dance", "rock", "pop"]
  ∨ moodGenres m = some ["ambient", "chill", "acoustic", "classical"]
  ∨ moodGenres m = some ["blues", "indie", "folk", "alternative"]
  ∨ moodGenres m = some ["ambient", "chill", "classical"]
  ∨ moodGenres m = some ["pop", "electronic", "dance"]
  ∨ moodGenres m = some ["indie", "alternative", "folk"]
  ∨ moodGenres m = some ["ambient", "classical", "acoustic"]
  ∨ moodGenres m = some ["rock", "alternative", "metal"]
  ∨ moodGenres m = some ["indie", "folk", "acoustic"]
  ∨ moodGenres m = none := by
  unfold moodGenres
  (repeat' split) <;> decide

/-- `baseFeatures` takes one of four values: the three rows or `none`. -/
lemma baseFeatures_cases (s : String) :
    baseFeatures s = some [("valence", 0.7), ("energy", 0.6), ("danceability", 0.6)]
  ∨ baseFeatures s = some [("valence", 0.3), ("energy", 0.4), ("danceability", 0.4)]
  ∨ baseFeatures s = some neutralFeatures
  ∨ baseFeatures s = none := by
  unfold baseFeatures
  (repeat' split) <;> simp

/-- `moodAdjustments` takes one of six values: the five rows or `none`. -/
lemma moodAdjustments_cases (m : String) :
    moodAdjustments m = some [("energy", 0.8), ("danceability", 0.7)]
  ∨ moodAdjustments m = some [("energy", 0.3), ("valence", 0.6)]
  ∨ moodAdjustments m = some [("energy", 0.9), ("valence", 0.8), ("danceability", 0.8)]
  ∨ moodAdjustments m = some [("valence", 0.2), ("energy", 0.3)]
  ∨ moodAdjustments m = some [("valence", 0.7), ("energy", 0.2)]
  ∨ moodAdjustments m = none := by
  unfold moodAdjustments
  (repeat' split) <;> simp

/-! ## Properties of JS property lookup -/

/-- Folding the property-reading step over `b` starting from `init`
yields `b`'s own binding when it has one, else `init`. -/
lemma getProp_foldl (b : List (String × ℚ)) (k : String) (init : Option ℚ) :
    b.foldl (fun acc p => if p.1 = k then some p.2 else acc) init
      = (getProp b k).or init := by
  induction b generalizing init with
  | nil => simp [getProp]
  | cons p t ih =>
    by_cases h : p.1 = k
    · simp only [getProp, List.foldl_cons, if_pos h] at ih ⊢
      rw [ih, Option.or_assoc, Option.or_some]
    · simp only [getProp, List.foldl_cons, if_neg h] at ih ⊢
      rw [ih]

/-- Reading a property of a spread `\x7b...a, ...b\x7d`: `b`'s binding wins,
otherwise `a`'s is kept. -/
lemma getProp_append (a b : List (String × ℚ)) (k : String) :
    getProp (a ++ b) k = (getProp b k).or (getProp a k) := by
  show (a ++ b).foldl (fun acc p => if p.1 = k then some p.2 else acc) none = _
  rw [List.foldl_append]
  exact getProp_foldl b k _

/-! ## Claim theorems -/

/-- C1: for every sentiment and mood, the genre seed list is obtained by
concatenating the sentiment's base-genre list (neutral row as fallback)
first and the mood's genre list second, with no de-duplication (the
concatenation for `positive`/`happy` really does contain duplicates),
and then taking the first 3 entries of the concatenation. -/
theorem seedGenres_concat_then_truncate (s m : String) :
    getGenresBySentiment s m = (genreMap s).getD neutralGenres ++ (moodGenres m).getD []
  ∧ recommendationSeedGenres s m = (getGenresBySentiment s m).take 3
  ∧ ¬ (getGenresBySentiment "positive" "happy").Nodup :=
  ⟨rfl, rfl, by decide⟩

/-- C9: the genre seed list sent to the service has at most 3 entries
and no duplicates, and coincides with the spec's GenreSeedSet
(concatenate sentiment genres then mood genres, de-duplicate keeping the
first occurrence, truncate to 3) for every input. -/
theorem seedGenres_refine_dedup_spec (s m : String) :
    recommendationSeedGenres s m = specGenreSeedSet s m
  ∧ (recommendationSeedGenres s m).Nodup
  ∧ (recommendationSeedGenres s m).length ≤ 3 := by
  unfold recommendationSeedGenres specGenreSeedSet getGenresBySentiment
  rcases genreMap_cases s with h | h | h | h <;> rw [h] <;>
    rcases moodGenres_cases m with h2 | h2 | h2 | h2 | h2 | h2 | h2 | h2 | h2 | h2 | h2 <;>
      rw [h2] <;> decide

/-- C10: every base-genre row (including the neutral fallback) has 5
entries, so the truncated seed list is exactly the first 3 base genres:
it always has exactly 3 elements and the mood never contributes a seed. -/
theorem seedGenres_mood_never_contributes (s m : String) :
    recommendationSeedGenres s m = ((genreMap s).getD neutralGenres).take 3
  ∧ (recommendationSeedGenres s m).length = 3
  ∧ ((genreMap s).getD neutralGenres).length = 5 := by
  unfold recommendationSeedGenres getGenresBySentiment
  rcases genreMap_cases s with h | h | h | h <;> rw [h] <;>
    rcases moodGenres_cases m with h2 | h2 | h2 | h2 | h2 | h2 | h2 | h2 | h2 | h2 | h2 <;>
      rw [h2] <;> decide

/-- C3: a sentiment string outside `positive`/`negative`/`neutral`
behaves exactly like `neutral` with the same mood, for the genre seeds
and for the audio features. -/
theorem unknown_sentiment_as_neutral (s m : String)
    (h1 : s ≠ "positive") (h2 : s ≠ "negative") (h3 : s ≠ "neutral") :
    getGenresBySentiment s m = getGenresBySentiment "neutral" m
  ∧ recommendationSeedGenres s m = recommendationSeedGenres "neutral" m
  ∧ getAudioFeaturesBySentiment s m = getAudioFeaturesBySentiment "neutral" m := by
  have hg : genreMap s = none := by
    unfold genreMap; rw [if_neg h1, if_neg h2, if_neg h3]
  have hb : baseFeatures s = none := by
    unfold baseFeatures; rw [if_neg h1, if_neg h2, if_neg h3]
  refine ⟨?_, ?_, ?_⟩ <;>
    · simp only [getGenresBySentiment, recommendationSeedGenres,
        getAudioFeaturesBySentiment, hg, hb]
      simp [genreMap, baseFeatures]

/-- Witness for C3 at the concrete unknown sentiment `wibble`. -/
theorem unknown_sentiment_as_neutral_witness :
    getGenresBySentiment "wibble" "happy" = getGenresBySentiment "neutral" "happy"
  ∧ recommendationSeedGenres "wibble" "happy" = recommendationSeedGenres "neutral" "happy"
  ∧ getAudioFeaturesBySentiment "wibble" "happy" = getAudioFeaturesBySentiment "neutral" "happy" :=
  unknown_sentiment_as_neutral "wibble" "happy" (by decide) (by decide) (by decide)

/-- C4: a mood string outside the ten-mood enumeration contributes no
genres and no feature overrides: the result is the sentiment-only
result, and in particular agrees with any other unknown mood token such
as the empty string. -/
theorem unknown_mood_contributes_nothing (s m : String)
    (h1 : m ≠ "happy") (h2 : m ≠ "energetic") (h3 : m ≠ "calm") (h4 : m ≠ "sad")
    (h5 : m ≠ "anxious") (h6 : m ≠ "excited") (h7 : m ≠ "melancholy")
    (h8 : m ≠ "peaceful") (h9 : m ≠ "angry") (h10 : m ≠ "content") :
    getGenresBySentiment s m = (genreMap s).getD neutralGenres
  ∧ recommendationSeedGenres s m = ((genreMap s).getD neutralGenres).take 3
  ∧ getAudioFeaturesBySentiment s m = (baseFeatures s).getD neutralFeatures
  ∧ getGenresBySentiment s m = getGenresBySentiment s ""
  ∧ getAudioFeaturesBySentiment s m = getAudioFeaturesBySentiment s "" := by
  have hm : moodGenres m = none := by
    unfold moodGenres
    rw [if_neg h1, if_neg h2, if_neg h3, if_neg h4, if_neg h5, if_neg h6, if_neg h7,
      if_neg h8, if_neg h9, if_neg h10]
  have ha : moodAdjustments m = none := by
    unfold moodAdjustments
    rw [if_neg h2, if_neg h3, if_neg h6, if_neg h4, if_neg h8]
  refine ⟨?_, ?_, ?_, ?_, ?_⟩ <;>
    · simp only [getGenresBySentiment, recommendationSeedGenres,
        getAudioFeaturesBySentiment, hm, ha]
      simp [moodGenres, moodAdjustments]

/-- Witness for C4: `(negative, unknown-mood-token)` collapses to the
sentiment-only result. -/
theorem unknown_mood_contributes_nothing_witness :
    getGenresBySentiment "negative" "unknown-mood-token"
      = (genreMap "negative").getD neutralGenres
  ∧ recommendationSeedGenres "negative" "unknown-mood-token"
      = ((genreMap "negative").getD neutralGenres).take 3
  ∧ getAudioFeaturesBySentiment "negative" "unknown-mood-token"
      = (baseFeatures "negative").getD neutralFeatures
  ∧ getGenresBySentiment "negative" "unknown-mood-token" = getGenresBySentiment "negative" ""
  ∧ getAudioFeaturesBySentiment "negative" "unknown-mood-token"
      = getAudioFeaturesBySentiment "negative" "" :=
  unknown_mood_contributes_nothing "negative" "unknown-mood-token"
    (by decide) (by decide) (by decide) (by decide) (by decide)
    (by decide) (by decide) (by decide) (by decide) (by decide)

/-- C2: for every sentiment, mood and property, the audio-feature object
reads as the mood's override value when the mood's (sparse, partial)
adjustment record binds that property, and as the sentiment's base value
otherwise; the base record always binds all three feature names, so a
mood entry overrides per-field rather than replacing the triple.  The
spec's own test vector `(positive, energetic)` illustrates it: `energy`
and `danceability` are overridden while `valence` keeps the base 0.7. -/
theorem audioFeatures_overlay (s m k : String) :
    getProp (getAudioFeaturesBySentiment s m) k
      = ((getProp ((moodAdjustments m).getD []) k).or
          (getProp ((baseFeatures s).getD neutralFeatures) k))
  ∧ (getProp ((baseFeatures s).getD neutralFeatures) "valence").isSome = true
  ∧ (getProp ((baseFeatures s).getD neutralFeatures) "energy").isSome = true
  ∧ (getProp ((baseFeatures s).getD neutralFeatures) "danceability").isSome = true
  ∧ getProp (getAudioFeaturesBySentiment "positive" "energetic") "valence" = some 0.7
  ∧ getProp (getAudioFeaturesBySentiment "positive" "energetic") "energy" = some 0.8
  ∧ getProp (getAudioFeaturesBySentiment "positive" "energetic") "danceability" = some 0.7 := by
  refine ⟨getProp_append _ _ k, ?_, ?_, ?_, rfl, rfl, rfl⟩ <;>
    rcases baseFeatures_cases s with h | h | h | h <;> rw [h] <;> rfl

/-- C5: the mapper is total and pure (it is a Lean function), the seed
list it sends has length at most 3, and every feature value in the
audio-feature object lies in [0, 1]. -/
theorem mapper_total_bounded (s m : String) :
    (recommendationSeedGenres s m).length ≤ 3
  ∧ ∀ p ∈ getAudioFeaturesBySentiment s m, 0 ≤ p.2 ∧ p.2 ≤ 1 := by
  constructor
  · exact List.length_take_le 3 (getGenresBySentiment s m)
  · unfold getAudioFeaturesBySentiment
    rcases baseFeatures_cases s with h | h | h | h <;> rw [h] <;>
      rcases moodAdjustments_cases m with h2 | h2 | h2 | h2 | h2 | h2 <;> rw [h2] <;>
        · simp only [Option.getD_some, Option.getD_none, List.append_nil]
          intro p hp
          fin_cases hp <;> constructor <;> norm_num [neutralFeatures]

/-- Witness for C5 at `(positive, calm)` and the `valence` field. -/
theorem mapper_total_bounded_witness :
    (recommendationSeedGenres "positive" "calm").length ≤ 3
  ∧ (0 ≤ (0.7 : ℚ) ∧ (0.7 : ℚ) ≤ 1) :=
  ⟨(mapper_total_bounded "positive" "calm").1,
   (mapper_total_bounded "positive" "calm").2 ("valence", 0.7)
     (by simp [getAudioFeaturesBySentiment, baseFeatures, moodAdjustments])⟩

/-- C6 counterexample: malformed classifier responses that still parse
are NOT replaced by the neutral default.  With `null` content the code
runs `JSON.parse('\x7b\x7d')` and returns the empty object; with empty-string
content (falsy, so `||` substitutes `'\x7b\x7d'`) likewise; with the
wrong-shape JSON text `5` it returns the number 5.  None of these equal
`\x7bsentiment: neutral, confidence: 0.5, mood: calm\x7d`. -/
theorem analyzeSentiment_malformed_not_defaulted :
    analyzeSentiment (.ok none) jsonParseFragment = .obj []
  ∧ analyzeSentiment (.ok (some "")) jsonParseFragment = .obj []
  ∧ analyzeSentiment (.ok (some "5")) jsonParseFragment = .num 5
  ∧ Js.obj [] ≠ jsDefaultSentimentResult
  ∧ Js.num 5 ≠ jsDefaultSentimentResult :=
  ⟨rfl, rfl, rfl, by simp [jsDefaultSentimentResult], by simp [jsDefaultSentimentResult]⟩

/-- C6 amended: when the classifier call throws, or the (`||`-defaulted)
content fails to parse as JSON, `analyzeSentiment` returns exactly the
neutral default and, being total, never raises; but content that *does*
parse — including `null`/empty content, which parses as the empty
object, and valid JSON of the wrong shape — is returned unvalidated
instead of being replaced by the default. -/
theorem analyzeSentiment_catch_defaults
    (jsonParse : String → Except String Js) (e : String) (c : Option String) :
    analyzeSentiment (.error e) jsonParse = jsDefaultSentimentResult
  ∧ (∀ msg, jsonParse (orEmptyJson c) = .error msg →
      analyzeSentiment (.ok c) jsonParse = jsDefaultSentimentResult)
  ∧ (∀ v, jsonParse (orEmptyJson c) = .ok v →
      analyzeSentiment (.ok c) jsonParse = v) := by
  refine ⟨rfl, ?_, ?_⟩ <;>
    · intro x h
      show (match jsonParse (orEmptyJson c) with
        | .error _ => jsDefaultSentimentResult
        | .ok result => result) = _
      rw [h]

/-- Witness for the amended C6: a thrown call and an unparsable body
yield the neutral default; a parsed body is passed through. -/
theorem analyzeSentiment_catch_defaults_witness :
    analyzeSentiment (.error "network error") jsonParseFragment = jsDefaultSentimentResult
  ∧ analyzeSentiment (.ok (some "not json")) jsonParseFragment = jsDefaultSentimentResult
  ∧ analyzeSentiment (.ok none) jsonParseFragment = Js.obj [] :=
  ⟨(analyzeSentiment_catch_defaults jsonParseFragment "network error" (some "not json")).1,
   (analyzeSentiment_catch_defaults jsonParseFragment "network error" (some "not json")).2.1
     "SyntaxError: Unexpected token" rfl,
   (analyzeSentiment_catch_defaults jsonParseFragment "network error" none).2.2
     (Js.obj []) rfl⟩

/-- C7 counterexample: the add-tracks step fails (its HTTP response has
`ok = false`, a failed step by the same standard the code applies to the
first two steps), yet `createPlaylist` still returns the created
playlist rather than `none` — the add-tracks response status is never
inspected. -/
theorem createPlaylist_addFailure_returns_playlist :
    stepFailed (α := Unit) (.ok ⟨false, ()⟩) = true
  ∧ (createPlaylist (.ok ⟨true, "user1"⟩)
      (.ok ⟨true, ⟨"pl1", "https://open.spotify.com/playlist/pl1"⟩⟩)
      (.ok ⟨false, ()⟩) "Mood Playlist" ["track1"]).1
      = some ⟨"pl1", "https://open.spotify.com/playlist/pl1"⟩ :=
  ⟨rfl, rfl⟩

/-- C7 amended: a failed user-resolution step (thrown or error
response) or a failed create-playlist step short-circuits to no
playlist; a *thrown* add-tracks call also yields no playlist (without
any rollback request: the trace ends after the three requests); but an
add-tracks call that completes with an error response is ignored and
the created playlist is returned anyway. -/
theorem createPlaylist_short_circuit (me : Except String (HttpResp String))
    (pl : Except String (HttpResp SpotifyPlaylist)) (add : Except String (HttpResp Unit))
    (name : String) (trackIds : List String) :
    (stepFailed me = true → createPlaylist me pl add name trackIds = (none, [.getMe]))
  ∧ (stepFailed me = false → stepFailed pl = true →
      createPlaylist me pl add name trackIds = (none, [.getMe, .createPlaylistReq name]))
  ∧ (∀ e, stepFailed me = false → stepFailed pl = false → trackIds ≠ [] → add = .error e →
      createPlaylist me pl add name trackIds
        = (none, [.getMe, .createPlaylistReq name,
            .addTracksReq (trackIds.map (fun id => "spotify:track:" ++ id))]))
  ∧ (∀ p r, stepFailed me = false → pl = .ok p → p.ok = true → add = .ok r →
      (createPlaylist me pl add name trackIds).1 = some p.body) := by
  refine ⟨?_, ?_, ?_, ?_⟩
  · intro hme
    cases me with
    | error e => rfl
    | ok u =>
      simp only [stepFailed, Bool.not_eq_eq_eq_not, Bool.not_true] at hme
      simp [createPlaylist, hme]
  · intro hme hpl
    cases me with
    | error e => simp [stepFailed] at hme
    | ok u =>
      simp only [stepFailed, Bool.not_eq_eq_eq_not, Bool.not_false] at hme
      cases pl with
      | error e => simp [createPlaylist, hme]
      | ok q =>
        simp only [stepFailed, Bool.not_eq_eq_eq_not, Bool.not_true] at hpl
        simp [createPlaylist, hme, hpl]
  · intro e hme hpl ht hadd
    cases me with
    | error e2 => simp [stepFailed] at hme
    | ok u =>
      simp only [stepFailed, Bool.not_eq_eq_eq_not, Bool.not_false] at hme
      cases pl with
      | error e2 => simp [stepFailed] at hpl
      | ok q =>
        simp only [stepFailed, Bool.not_eq_eq_eq_not, Bool.not_false] at hpl
        subst hadd
        simp [createPlaylist, hme, hpl, List.length_pos.mpr ht]
  · intro p r hme hpl hq hadd
    cases me with
    | error e => simp [stepFailed] at hme
    | ok u =>
      simp only [stepFailed, Bool.not_eq_eq_eq_not, Bool.not_false] at hme
      subst hpl
      subst hadd
      by_cases ht : trackIds.length > 0 <;> simp [createPlaylist, hme, hq, ht]

/-- Witness for the amended C7: each short-circuit case at concrete
inputs, plus the returned playlist when every step completes. -/
theorem createPlaylist_short_circuit_witness :
    createPlaylist (.error "network") (.ok ⟨true, ⟨"pl9", "u9"⟩⟩) (.ok ⟨true, ()⟩)
      "Evening" ["t1"] = (none, [.getMe])
  ∧ createPlaylist (.ok ⟨true, "user9"⟩) (.ok ⟨false, ⟨"pl9", "u9"⟩⟩) (.ok ⟨true, ()⟩)
      "Evening" ["t1"] = (none, [.getMe, .createPlaylistReq "Evening"])
  ∧ createPlaylist (.ok ⟨true, "user9"⟩) (.ok ⟨true, ⟨"pl9", "u9"⟩⟩) (.error "timeout")
      "Evening" ["t1"]
      = (none, [.getMe, .createPlaylistReq "Evening", .addTracksReq ["spotify:track:t1"]])
  ∧ (createPlaylist (.ok ⟨true, "user9"⟩) (.ok ⟨true, ⟨"pl9", "u9"⟩⟩) (.ok ⟨true, ()⟩)
      "Evening" ["t1"]).1 = some ⟨"pl9", "u9"⟩ :=
  ⟨(createPlaylist_short_circuit _ _ _ _ _).1 rfl,
   (createPlaylist_short_circuit _ _ _ _ _).2.1 rfl rfl,
   (createPlaylist_short_circuit _ _ _ _ _).2.2.1 "timeout" rfl rfl (by decide) rfl,
   (createPlaylist_short_circuit _ _ _ _ _).2.2.2 ⟨true, ⟨"pl9", "u9"⟩⟩ ⟨true, ()⟩
     rfl rfl rfl rfl⟩

/-- C8: whenever the entries endpoint answers an authenticated user with
a list of records, that list has at most 50 records and is ordered by
descending creation time. -/
theorem entriesGET_capped_sorted (session : Option SessionData) (users : List User)
    (db : List Entry) (l : List Entry)
    (h : entriesGET session users db = .ok l) :
    l.length ≤ 50 ∧ l.Pairwise (fun a b => b.date ≤ a.date) := by
  rcases session with _ | ⟨_ | ⟨_ | email⟩⟩
  · exact absurd h (by simp [entriesGET])
  · exact absurd h (by simp [entriesGET])
  · exact absurd h (by simp [entriesGET])
  simp only [entriesGET] at h
  cases hf : List.find? (fun usr => usr.email == email) users with
  | none => rw [hf] at h; simp at h
  | some usr =>
    rw [hf] at h
    simp only [EntriesResponse.ok.injEq] at h
    subst h
    unfold findManyEntries
    refine ⟨List.length_take_le 50 _, ?_⟩
    exact List.Pairwise.sublist (List.take_sublist 50 _)
      (List.sorted_insertionSort entryAfter _)

/-- Concrete session, user table and entry table for the C8 witness. -/
def wSession : Option SessionData := some ⟨some ⟨some "ada@example.com"⟩⟩

/-- One registered user matching the session email. -/
def wUsers : List User := [⟨1, "ada@example.com"⟩]

/-- Three stored entries: two for user 1 (out of creation order), one
for another user. -/
def wEntries : List Entry :=
  [⟨1, 1, "quiet morning", some "neutral", some "calm", 100⟩,
   ⟨2, 1, "great concert", some "positive", some "happy", 200⟩,
   ⟨3, 2, "someone else", none, none, 300⟩]

/-- Witness for C8: on the concrete store the endpoint answers with the
two entries of user 1, newest first. -/
theorem entriesGET_capped_sorted_witness :
    ([⟨2, 1, "great concert", some "positive", some "happy", 200⟩,
      ⟨1, 1, "quiet morning", some "neutral", some "calm", 100⟩] : List Entry).length ≤ 50
  ∧ ([⟨2, 1, "great concert", some "positive", some "happy", 200⟩,
      ⟨1, 1, "quiet morning", some "neutral", some "calm", 100⟩] : List Entry).Pairwise
      (fun a b => b.date ≤ a.date) :=
  entriesGET_capped_sorted wSession wUsers wEntries _ (by decide)

end Reflections
